import Mathlib

/-
Shallow embedding of the FlavorHub restaurant platform server handlers.

The relational tables of src/db/schema (part_009) are embedded as Lean
lists of rows; serial primary keys are embedded as explicit next-id
counters carried in the database state.  Monetary "numeric" columns are
embedded as exact rationals (the handlers round-trip them through
strings with parseFloat / toString, which is the identity on the values
the schema admits).  Wall-clock columns (created_at, updated_at) are
outside the embedding: no handler logic reads them.  The
reservation_date timestamp is embedded as an abstract tick value, since
cancelReservation must preserve it.

Each handler from src/server/src/handlers (parts 005, 007, and
reservations.ts) becomes a pure function from the database state to a
result together with the successor state.  A thrown JS error is
embedded as Except.error paired with the unchanged state: in every
handler embedded here, all throws happen before any write.  The Zod
input schemas (part_008) become input structures plus validity
predicates for their refinements (positive amounts and quantities).
-/

namespace FlavorHub

/-- user_role enum from the schema. -/
inductive UserRole where
  | customer
  | partner
deriving DecidableEq, Repr

/-- order_status enum from the schema. -/
inductive OrderStatus where
  | pending
  | confirmed
  | preparing
  | ready
  | delivered
  | cancelled
deriving DecidableEq, Repr

/-- payment_status enum from the schema. -/
inductive PaymentStatus where
  | pending
  | processing
  | completed
  | failed
  | refunded
deriving DecidableEq, Repr

/-- payment_type enum from the schema. -/
inductive PaymentType where
  | order
  | reservation
deriving DecidableEq, Repr

/-- reservation_status enum from the schema. -/
inductive ReservationStatus where
  | pending
  | confirmed
  | cancelled
  | completed
deriving DecidableEq, Repr

/-- Row of the users table. -/
structure User where
  id : Nat
  email : String
  password_hash : String
  first_name : String
  last_name : String
  phone : Option String
  role : UserRole
deriving DecidableEq, Repr

/-- Row of the restaurants table. -/
structure Restaurant where
  id : Nat
  partner_id : Nat
  name : String
  description : Option String
  address : String
  phone : String
  email : Option String
  opening_hours : String
  cuisine_type : Option String
deriving DecidableEq, Repr

/-- Row of the menu_items table. -/
structure MenuItem where
  id : Nat
  restaurant_id : Nat
  name : String
  description : Option String
  price : ℚ
  category : Option String
  is_available : Bool
  image_url : Option String
deriving DecidableEq, Repr

/-- Row of the reservations table; reservation_date is an abstract tick. -/
structure Reservation where
  id : Nat
  customer_id : Nat
  restaurant_id : Nat
  reservation_date : Nat
  party_size : Nat
  status : ReservationStatus
  special_requests : Option String
deriving DecidableEq, Repr

/-- Row of the orders table. -/
structure Order where
  id : Nat
  customer_id : Nat
  restaurant_id : Nat
  status : OrderStatus
  total_amount : ℚ
  delivery_address : Option String
  special_instructions : Option String
deriving DecidableEq, Repr

/-- Row of the order_items table. -/
structure OrderItem where
  id : Nat
  order_id : Nat
  menu_item_id : Nat
  quantity : Nat
  unit_price : ℚ
  total_price : ℚ
  special_instructions : Option String
deriving DecidableEq, Repr

/-- Row of the payments table. -/
structure Payment where
  id : Nat
  user_id : Nat
  order_id : Option Nat
  reservation_id : Option Nat
  type : PaymentType
  amount : ℚ
  status : PaymentStatus
  payment_method : String
  transaction_id : Option String
deriving DecidableEq, Repr

/-- The database state: the tables plus the serial-id counters. -/
structure DB where
  users : List User
  restaurants : List Restaurant
  menu_items : List MenuItem
  reservations : List Reservation
  orders : List Order
  order_items : List OrderItem
  payments : List Payment
  next_order_id : Nat
  next_order_item_id : Nat
  next_payment_id : Nat
deriving DecidableEq, Repr

/-- createOrderInputSchema from part_008. -/
structure CreateOrderInput where
  customer_id : Nat
  restaurant_id : Nat
  delivery_address : Option String
  special_instructions : Option String
deriving DecidableEq, Repr

/-- updateOrderInputSchema from part_008; optional fields are Option. -/
structure UpdateOrderInput where
  id : Nat
  status : Option OrderStatus
  delivery_address : Option (Option String)
  special_instructions : Option (Option String)
deriving DecidableEq, Repr

/-- createOrderItemInputSchema from part_008. -/
structure CreateOrderItemInput where
  order_id : Nat
  menu_item_id : Nat
  quantity : Nat
  unit_price : ℚ
  special_instructions : Option String
deriving DecidableEq, Repr

/-- Zod refinements of createOrderItemInputSchema: quantity is a
positive integer and unit_price is positive. -/
def CreateOrderItemInput.Valid (i : CreateOrderItemInput) : Prop :=
  0 < i.quantity ∧ 0 < i.unit_price

instance (i : CreateOrderItemInput) : Decidable i.Valid := by
  unfold CreateOrderItemInput.Valid; infer_instance

/-- createPaymentInputSchema from part_008. -/
structure CreatePaymentInput where
  user_id : Nat
  order_id : Option Nat
  reservation_id : Option Nat
  type : PaymentType
  amount : ℚ
  payment_method : String
deriving DecidableEq, Repr

/-- Zod refinement of createPaymentInputSchema: amount is positive. -/
def CreatePaymentInput.Valid (i : CreatePaymentInput) : Prop :=
  0 < i.amount

instance (i : CreatePaymentInput) : Decidable i.Valid := by
  unfold CreatePaymentInput.Valid; infer_instance

/-- updatePaymentInputSchema from part_008. -/
structure UpdatePaymentInput where
  id : Nat
  status : Option PaymentStatus
  transaction_id : Option (Option String)
deriving DecidableEq, Repr

/-- Renders a payment status the way the thrown template strings do. -/
def PaymentStatus.text : PaymentStatus → String
  | .pending => "pending"
  | .processing => "processing"
  | .completed => "completed"
  | .failed => "failed"
  | .refunded => "refunded"

/-- createOrder from part_007 lines 144-189: validate that the customer
and the restaurant exist, then insert an order with status pending and
total_amount 0. -/
def createOrder (input : CreateOrderInput) (s : DB) :
    Except String Order × DB :=
  if (s.users.find? fun u => u.id = input.customer_id).isNone then
    (Except.error "Customer not found", s)
  else if (s.restaurants.find? fun r => r.id = input.restaurant_id).isNone then
    (Except.error "Restaurant not found", s)
  else
    let o : Order :=
      { id := s.next_order_id
        customer_id := input.customer_id
        restaurant_id := input.restaurant_id
        status := OrderStatus.pending
        total_amount := 0
        delivery_address := input.delivery_address
        special_instructions := input.special_instructions }
    (Except.ok o,
      { s with
          orders := s.orders ++ [o]
          next_order_id := s.next_order_id + 1 })

/-- The dynamically built updateValues object of updateOrder, applied
to one order row: absent input fields leave the row field as it was. -/
def applyOrderUpdate (input : UpdateOrderInput) (o : Order) : Order :=
  { o with
      status := input.status.getD o.status
      delivery_address := input.delivery_address.getD o.delivery_address
      special_instructions :=
        input.special_instructions.getD o.special_instructions }

/-- updateOrder from part_007 lines 191-226: validate that the order
exists, then update the provided fields on every row with that id and
return the first updated row.  No status-transition check is made. -/
def updateOrder (input : UpdateOrderInput) (s : DB) :
    Except String Order × DB :=
  match s.orders.find? fun o => o.id = input.id with
  | none => (Except.error "Order not found", s)
  | some o =>
      (Except.ok (applyOrderUpdate input o),
        { s with
            orders := s.orders.map fun x =>
              if x.id = input.id then applyOrderUpdate input x else x })

/-- addOrderItem from part_007 lines 287-347: validate that the order
and the menu item exist, insert an item with total_price equal to
unit_price times quantity, and add that amount to the order total read
before the insert. -/
def addOrderItem (input : CreateOrderItemInput) (s : DB) :
    Except String OrderItem × DB :=
  match s.orders.find? fun o => o.id = input.order_id with
  | none => (Except.error "Order not found", s)
  | some o =>
      if (s.menu_items.find? fun m => m.id = input.menu_item_id).isNone then
        (Except.error "Menu item not found", s)
      else
        let totalPrice : ℚ := input.unit_price * input.quantity
        let item : OrderItem :=
          { id := s.next_order_item_id
            order_id := input.order_id
            menu_item_id := input.menu_item_id
            quantity := input.quantity
            unit_price := input.unit_price
            total_price := totalPrice
            special_instructions := input.special_instructions }
        let newTotal : ℚ := o.total_amount + totalPrice
        (Except.ok item,
          { s with
              order_items := s.order_items ++ [item]
              orders := s.orders.map fun x =>
                if x.id = input.order_id then
                  { x with total_amount := newTotal }
                else x
              next_order_item_id := s.next_order_item_id + 1 })

/-- removeOrderItem from part_007 lines 368-418: if no item matches
both ids, or the order is missing, return false and change nothing;
otherwise delete the matching item rows and set the order total to the
old total minus the total_price of the first matching item, clamped at
zero by Math.max. -/
def removeOrderItem (orderItemId orderId : Nat) (s : DB) : Bool × DB :=
  match s.order_items.find?
      fun it => it.id = orderItemId ∧ it.order_id = orderId with
  | none => (false, s)
  | some item =>
      match s.orders.find? fun o => o.id = orderId with
      | none => (false, s)
      | some o =>
          let newTotal : ℚ := o.total_amount - item.total_price
          (true,
            { s with
                order_items := s.order_items.filter
                  fun it => ¬ (it.id = orderItemId ∧ it.order_id = orderId)
                orders := s.orders.map fun x =>
                  if x.id = orderId then
                    { x with total_amount := max 0 newTotal }
                  else x })

/-- The truthy foreign-key guard of createPayment for orders: the check
runs only when the type is order and order_id is truthy (non-null and,
by JS truthiness, nonzero), and it fails when no such order exists. -/
def orderFkViolated (input : CreatePaymentInput) (s : DB) : Bool :=
  match input.type, input.order_id with
  | PaymentType.order, some oid =>
      oid != 0 && (s.orders.find? fun o => o.id = oid).isNone
  | _, _ => false

/-- The truthy foreign-key guard of createPayment for reservations. -/
def reservationFkViolated (input : CreatePaymentInput) (s : DB) : Bool :=
  match input.type, input.reservation_id with
  | PaymentType.reservation, some rid =>
      rid != 0 && (s.reservations.find? fun r => r.id = rid).isNone
  | _, _ => false

/-- createPayment from part_005 lines 6-65: validate that the user
exists and the type-specific foreign keys when supplied, then insert a
payment with status pending, a null transaction_id, and the ids copied
from the input as given. -/
def createPayment (input : CreatePaymentInput) (s : DB) :
    Except String Payment × DB :=
  if (s.users.find? fun u => u.id = input.user_id).isNone then
    (Except.error "User not found", s)
  else if orderFkViolated input s then
    (Except.error "Order not found", s)
  else if reservationFkViolated input s then
    (Except.error "Reservation not found", s)
  else
    let p : Payment :=
      { id := s.next_payment_id
        user_id := input.user_id
        order_id := input.order_id
        reservation_id := input.reservation_id
        type := input.type
        amount := input.amount
        status := PaymentStatus.pending
        payment_method := input.payment_method
        transaction_id := none }
    (Except.ok p,
      { s with
          payments := s.payments ++ [p]
          next_payment_id := s.next_payment_id + 1 })

/-- The dynamically built updateValues object of updatePayment, applied
to one payment row. -/
def applyPaymentUpdate (input : UpdatePaymentInput) (p : Payment) : Payment :=
  { p with
      status := input.status.getD p.status
      transaction_id := input.transaction_id.getD p.transaction_id }

/-- updatePayment from part_005 lines 67-109: validate that the payment
exists, then set the provided status and transaction_id on every row
with that id.  No status-transition check is made. -/
def updatePayment (input : UpdatePaymentInput) (s : DB) :
    Except String Payment × DB :=
  match s.payments.find? fun p => p.id = input.id with
  | none => (Except.error "Payment not found", s)
  | some p =>
      (Except.ok (applyPaymentUpdate input p),
        { s with
            payments := s.payments.map fun x =>
              if x.id = input.id then applyPaymentUpdate input x else x })

/-- processPayment from part_005 lines 220-262: the payment must exist
with status pending; it is then moved to processing and given the
freshly generated transaction id, passed here as the txn argument
standing for the Date.now and Math.random derived string. -/
def processPayment (paymentId : Nat) (txn : String) (s : DB) :
    Except String Payment × DB :=
  match s.payments.find? fun p => p.id = paymentId with
  | none => (Except.error "Payment not found", s)
  | some p =>
      if p.status ≠ PaymentStatus.pending then
        (Except.error
          ("Cannot process payment with status: " ++ p.status.text), s)
      else
        (Except.ok { p with
            status := PaymentStatus.processing
            transaction_id := some txn },
          { s with
              payments := s.payments.map fun x =>
                if x.id = paymentId then
                  { x with
                      status := PaymentStatus.processing
                      transaction_id := some txn }
                else x })

/-- refundPayment from part_005 lines 264-305: the payment must exist
with status completed; it is then moved to refunded and given the
freshly generated refund transaction id, passed here as txn. -/
def refundPayment (paymentId : Nat) (txn : String) (s : DB) :
    Except String Payment × DB :=
  match s.payments.find? fun p => p.id = paymentId with
  | none => (Except.error "Payment not found", s)
  | some p =>
      if p.status ≠ PaymentStatus.completed then
        (Except.error
          ("Cannot refund payment with status: " ++ p.status.text), s)
      else
        (Except.ok { p with
            status := PaymentStatus.refunded
            transaction_id := some txn },
          { s with
              payments := s.payments.map fun x =>
                if x.id = paymentId then
                  { x with
                      status := PaymentStatus.refunded
                      transaction_id := some txn }
                else x })

/-- Expresses that a handler call threw a JS error. -/
def raisesError {α : Type} (r : Except String α × DB) : Prop :=
  ∃ e, r.1 = Except.error e

/-- cancelReservation from reservations.ts lines 199-237: the inner
join of the reservation with its restaurant must be nonempty; the
caller must be the customer of the reservation or the partner of the
restaurant; the reservation status is then set to cancelled. -/
def cancelReservation (id userId : Nat) (s : DB) :
    Except String Bool × DB :=
  match s.reservations.find? fun r => r.id = id with
  | none => (Except.error "Reservation not found", s)
  | some resv =>
      match s.restaurants.find? fun rest => rest.id = resv.restaurant_id with
      | none => (Except.error "Reservation not found", s)
      | some rest =>
          if ¬ resv.customer_id = userId ∧ ¬ rest.partner_id = userId then
            (Except.error "Unauthorized to cancel this reservation", s)
          else
            (Except.ok true,
              { s with
                  reservations := s.reservations.map fun r =>
                    if r.id = id then
                      { r with status := ReservationStatus.cancelled }
                    else r })

/-- Derived total of an order, as the spec words it: the sum of the
total_price values of the order items whose order_id is the given id. -/
def itemsTotal (items : List OrderItem) (oid : Nat) : ℚ :=
  ((items.filter fun it => it.order_id = oid).map OrderItem.total_price).sum

/-- Transition chain of the spec for order statuses: the chain
pending, confirmed, preparing, ready, delivered, or from a non-final
state of the chain to cancelled, or staying put. -/
def allowedOrderTransition (a b : OrderStatus) : Prop :=
  a = b ∨
    (a = OrderStatus.pending ∧ b = OrderStatus.confirmed) ∨
    (a = OrderStatus.confirmed ∧ b = OrderStatus.preparing) ∨
    (a = OrderStatus.preparing ∧ b = OrderStatus.ready) ∨
    (a = OrderStatus.ready ∧ b = OrderStatus.delivered) ∨
    (a ≠ OrderStatus.delivered ∧ a ≠ OrderStatus.cancelled ∧
      b = OrderStatus.cancelled)

instance (a b : OrderStatus) : Decidable (allowedOrderTransition a b) := by
  unfold allowedOrderTransition; infer_instance

/-- Transition chain of the spec for payment statuses: the chain
pending, processing, completed, refunded, or any state to failed, or
staying put. -/
def allowedPaymentTransition (a b : PaymentStatus) : Prop :=
  a = b ∨
    (a = PaymentStatus.pending ∧ b = PaymentStatus.processing) ∨
    (a = PaymentStatus.processing ∧ b = PaymentStatus.completed) ∨
    (a = PaymentStatus.completed ∧ b = PaymentStatus.refunded) ∨
    b = PaymentStatus.failed

instance (a b : PaymentStatus) : Decidable (allowedPaymentTransition a b) := by
  unfold allowedPaymentTransition; infer_instance

/-- Referential shape of a payment, as the spec words it: a payment
references exactly one of order_id and reservation_id per its type. -/
def PaymentRefOk (p : Payment) : Prop :=
  (p.type = PaymentType.order →
    p.order_id ≠ none ∧ p.reservation_id = none) ∧
  (p.type = PaymentType.reservation →
    p.reservation_id ≠ none ∧ p.order_id = none)

instance (p : Payment) : Decidable (PaymentRefOk p) := by
  unfold PaymentRefOk; infer_instance

/-- A createPayment input whose ids already match its type the way the
spec invariant demands of the stored payment. -/
def CreatePaymentInput.Matched (i : CreatePaymentInput) : Prop :=
  (i.type = PaymentType.order →
    i.order_id ≠ none ∧ i.reservation_id = none) ∧
  (i.type = PaymentType.reservation →
    i.reservation_id ≠ none ∧ i.order_id = none)

instance (i : CreatePaymentInput) : Decidable i.Matched := by
  unfold CreatePaymentInput.Matched; infer_instance

/-- One step of the order subsystem: any call, successful or not, to
one of the four order handlers, with the Zod-validated input shape. -/
inductive OrderStep : DB → DB → Prop where
  | create (input : CreateOrderInput) (s s' : DB) :
      s' = (createOrder input s).2 → OrderStep s s'
  | update (input : UpdateOrderInput) (s s' : DB) :
      s' = (updateOrder input s).2 → OrderStep s s'
  | addItem (input : CreateOrderItemInput) (s s' : DB) :
      input.Valid → s' = (addOrderItem input s).2 → OrderStep s s'
  | removeItem (orderItemId orderId : Nat) (s s' : DB) :
      s' = (removeOrderItem orderItemId orderId s).2 → OrderStep s s'

/-- One step of the payment subsystem: any call, successful or not, to
one of the four payment handlers, with the Zod-validated input shape. -/
inductive PaymentStep : DB → DB → Prop where
  | create (input : CreatePaymentInput) (s s' : DB) :
      input.Valid → s' = (createPayment input s).2 → PaymentStep s s'
  | update (input : UpdatePaymentInput) (s s' : DB) :
      s' = (updatePayment input s).2 → PaymentStep s s'
  | process (paymentId : Nat) (txn : String) (s s' : DB) :
      s' = (processPayment paymentId txn s).2 → PaymentStep s s'
  | refund (paymentId : Nat) (txn : String) (s s' : DB) :
      s' = (refundPayment paymentId txn s).2 → PaymentStep s s'

/-- Payment step whose createPayment inputs are additionally matched:
the restriction under which the referential invariant is preserved. -/
inductive MatchedPaymentStep : DB → DB → Prop where
  | create (input : CreatePaymentInput) (s s' : DB) :
      input.Valid → input.Matched →
      s' = (createPayment input s).2 → MatchedPaymentStep s s'
  | update (input : UpdatePaymentInput) (s s' : DB) :
      s' = (updatePayment input s).2 → MatchedPaymentStep s s'
  | process (paymentId : Nat) (txn : String) (s s' : DB) :
      s' = (processPayment paymentId txn s).2 → MatchedPaymentStep s s'
  | refund (paymentId : Nat) (txn : String) (s s' : DB) :
      s' = (refundPayment paymentId txn s).2 → MatchedPaymentStep s s'

/-- Payment step restricted to createPayment, processPayment and
refundPayment, the three payment handlers that constrain statuses. -/
inductive PaymentStepCPR : DB → DB → Prop where
  | create (input : CreatePaymentInput) (s s' : DB) :
      input.Valid → s' = (createPayment input s).2 → PaymentStepCPR s s'
  | process (paymentId : Nat) (txn : String) (s s' : DB) :
      s' = (processPayment paymentId txn s).2 → PaymentStepCPR s s'
  | refund (paymentId : Nat) (txn : String) (s s' : DB) :
      s' = (refundPayment paymentId txn s).2 → PaymentStepCPR s s'

/-- Inductive invariant of the order subsystem: id counters bound the
stored ids, item ids are pairwise distinct, item totals are nonnegative
and every order total is the derived sum of its item totals. -/
structure OrderInv (s : DB) : Prop where
  orders_lt : ∀ o ∈ s.orders, o.id < s.next_order_id
  items_ref_lt : ∀ it ∈ s.order_items, it.order_id < s.next_order_id
  items_lt : ∀ it ∈ s.order_items, it.id < s.next_order_item_id
  items_distinct : s.order_items.Pairwise fun a b => a.id ≠ b.id
  items_nonneg : ∀ it ∈ s.order_items, 0 ≤ it.total_price
  totals : ∀ o ∈ s.orders, o.total_amount = itemsTotal s.order_items o.id

section Fixtures

/-- Fixture customer user. -/
def uCustomer : User :=
  { id := 1, email := "c@example.com", password_hash := "h"
    first_name := "Cara", last_name := "Diner", phone := none
    role := UserRole.customer }

/-- Fixture partner user who owns the fixture restaurant. -/
def uPartner : User :=
  { id := 2, email := "p@example.com", password_hash := "h"
    first_name := "Pat", last_name := "Owner", phone := none
    role := UserRole.partner }

/-- Fixture third user, neither customer nor partner of the fixtures. -/
def uOther : User :=
  { id := 3, email := "o@example.com", password_hash := "h"
    first_name := "Ona", last_name := "Else", phone := none
    role := UserRole.customer }

/-- Fixture restaurant owned by the fixture partner. -/
def rest1 : Restaurant :=
  { id := 1, partner_id := 2, name := "Bistro", description := none
    address := "1 Main St", phone := "555-0100", email := none
    opening_hours := "9-17", cuisine_type := none }

/-- Fixture menu item of the fixture restaurant. -/
def menu1 : MenuItem :=
  { id := 1, restaurant_id := 1, name := "Pizza", description := none
    price := 10, category := none, is_available := true, image_url := none }

/-- Fixture reservation of the fixture customer at the fixture
restaurant. -/
def resv1 : Reservation :=
  { id := 1, customer_id := 1, restaurant_id := 1, reservation_date := 100
    party_size := 4, status := ReservationStatus.pending
    special_requests := none }

/-- Base fixture database: users, a restaurant, a menu item and a
reservation, with no orders, order items or payments yet. -/
def baseDB : DB :=
  { users := [uCustomer, uPartner, uOther], restaurants := [rest1]
    menu_items := [menu1], reservations := [resv1], orders := []
    order_items := [], payments := [], next_order_id := 1
    next_order_item_id := 1, next_payment_id := 1 }

/-- Fixture createOrder input. -/
def coInput : CreateOrderInput :=
  { customer_id := 1, restaurant_id := 1, delivery_address := none
    special_instructions := none }

/-- State after creating the fixture order. -/
def oS1 : DB := (createOrder coInput baseDB).2

/-- Fixture addOrderItem input: two units at price 10. -/
def aiInput : CreateOrderItemInput :=
  { order_id := 1, menu_item_id := 1, quantity := 2, unit_price := 10
    special_instructions := none }

/-- State after adding the fixture order item. -/
def oS2 : DB := (addOrderItem aiInput oS1).2

/-- Fixture order row as returned by createOrder on the base state. -/
def oOrder1 : Order :=
  { id := 1, customer_id := 1, restaurant_id := 1
    status := OrderStatus.pending, total_amount := 0
    delivery_address := none, special_instructions := none }

/-- Fixture order row as stored after both order steps. -/
def oOrder2 : Order :=
  { id := 1, customer_id := 1, restaurant_id := 1
    status := OrderStatus.pending, total_amount := 20
    delivery_address := none, special_instructions := none }

/-- Fixture order item row as returned by addOrderItem on oS1. -/
def wItem : OrderItem :=
  { id := 1, order_id := 1, menu_item_id := 1, quantity := 2
    unit_price := 10, total_price := 20, special_instructions := none }

/-- Fixture delivered order used against the order status chain. -/
def cexOrder4 : Order :=
  { id := 1, customer_id := 1, restaurant_id := 1
    status := OrderStatus.delivered, total_amount := 0
    delivery_address := none, special_instructions := none }

/-- Database holding the delivered fixture order. -/
def cexDB4 : DB :=
  { baseDB with orders := [cexOrder4], next_order_id := 2 }

/-- Update input that moves the delivered fixture order back to
pending. -/
def cexInput4 : UpdateOrderInput :=
  { id := 1, status := some OrderStatus.pending, delivery_address := none
    special_instructions := none }

/-- Fixture order row backing the fixture payments. -/
def ordA : Order :=
  { id := 1, customer_id := 1, restaurant_id := 1
    status := OrderStatus.pending, total_amount := 20
    delivery_address := none, special_instructions := none }

/-- Fixture pending payment for the fixture order. -/
def pPending : Payment :=
  { id := 1, user_id := 1, order_id := some 1, reservation_id := none
    type := PaymentType.order, amount := 20
    status := PaymentStatus.pending, payment_method := "card"
    transaction_id := none }

/-- Fixture completed payment for the fixture order. -/
def pCompleted : Payment :=
  { id := 2, user_id := 1, order_id := some 1, reservation_id := none
    type := PaymentType.order, amount := 20
    status := PaymentStatus.completed, payment_method := "card"
    transaction_id := some "txn_0" }

/-- Database with the fixture order and two fixture payments. -/
def payDB : DB :=
  { baseDB with
      orders := [ordA]
      payments := [pPending, pCompleted]
      next_order_id := 2
      next_payment_id := 3 }

/-- Payment input of type order carrying no order_id at all: accepted
by the Zod schema and by createPayment. -/
def cpBad : CreatePaymentInput :=
  { user_id := 1, order_id := none, reservation_id := none
    type := PaymentType.order, amount := 5, payment_method := "card" }

/-- Payment row produced by the mismatched input above. -/
def cpBadPayment : Payment :=
  { id := 1, user_id := 1, order_id := none, reservation_id := none
    type := PaymentType.order, amount := 5
    status := PaymentStatus.pending, payment_method := "card"
    transaction_id := none }

/-- Well-matched payment input of type order for the fixture order. -/
def cpGood : CreatePaymentInput :=
  { user_id := 1, order_id := some 1, reservation_id := none
    type := PaymentType.order, amount := 5, payment_method := "card" }

/-- Payment row produced by the matched input above on payDB. -/
def cpGoodPayment : Payment :=
  { id := 3, user_id := 1, order_id := some 1, reservation_id := none
    type := PaymentType.order, amount := 5
    status := PaymentStatus.pending, payment_method := "card"
    transaction_id := none }

/-- Update input that drags the completed fixture payment back to
pending. -/
def cexInput3 : UpdatePaymentInput :=
  { id := 2, status := some PaymentStatus.pending, transaction_id := none }

end Fixtures

section Lemmas

/-- Updating rows in place by key and then looking the key up finds the
updated first match. -/
theorem find?_map_ite {α : Type} (key : α → Nat) (g : α → α) (k : Nat)
    (hg : ∀ a, key (g a) = key a) (l : List α) :
    ((l.map fun a => if key a = k then g a else a).find?
        fun a => key a = k) =
      (l.find? fun a => key a = k).map g := by
  induction l with
  | nil => rfl
  | cons x t ih =>
    by_cases hk : key x = k
    · rw [List.map_cons, if_pos hk,
        List.find?_cons_of_pos _ (by simp [hg, hk]),
        List.find?_cons_of_pos _ (by simp [hk])]
      rfl
    · rw [List.map_cons, if_neg hk,
        List.find?_cons_of_neg _ (by simp [hk]),
        List.find?_cons_of_neg _ (by simp [hk]), ih]

/-- In a list of rows with pairwise distinct keys, two members with the
same key are the same row. -/
theorem pairwise_key_inj {α : Type} (key : α → Nat) {l : List α}
    (h : l.Pairwise fun a b => key a ≠ key b) :
    ∀ {a b : α}, a ∈ l → b ∈ l → key a = key b → a = b := by
  induction l with
  | nil => intro a b ha; simp at ha
  | cons x t ih =>
    intro a b ha hb hk
    rcases List.mem_cons.1 ha with rfl | ha' <;>
      rcases List.mem_cons.1 hb with rfl | hb'
    · rfl
    · exact absurd hk ((List.pairwise_cons.1 h).1 _ hb')
    · exact absurd hk.symm ((List.pairwise_cons.1 h).1 _ ha')
    · exact ih (List.pairwise_cons.1 h).2 ha' hb' hk

/-- Appending one item adds its total_price to the derived total of
its own order and nothing to any other. -/
theorem itemsTotal_append (l : List OrderItem) (it : OrderItem) (oid : Nat) :
    itemsTotal (l ++ [it]) oid =
      itemsTotal l oid + if it.order_id = oid then it.total_price else 0 := by
  unfold itemsTotal
  by_cases h : it.order_id = oid
  · simp [List.filter_append, h]
  · simp [List.filter_append, h]

/-- The derived total of a list of nonnegative items is nonnegative. -/
theorem itemsTotal_nonneg (l : List OrderItem) (oid : Nat)
    (h : ∀ it ∈ l, 0 ≤ it.total_price) : 0 ≤ itemsTotal l oid := by
  unfold itemsTotal
  apply List.sum_nonneg
  intro x hx
  rcases List.mem_map.1 hx with ⟨it, hit, rfl⟩
  exact h it (List.mem_of_mem_filter hit)

/-- Deleting the rows of one order leaves the item rows of every other
order untouched. -/
theorem filter_remove_other (l : List OrderItem)
    (orderItemId orderId oid : Nat) (hne : oid ≠ orderId) :
    ((l.filter fun x => ¬ (x.id = orderItemId ∧ x.order_id = orderId)).filter
        fun x => x.order_id = oid) =
      l.filter fun x => x.order_id = oid := by
  rw [List.filter_filter]
  apply List.filter_congr
  intro x hx
  by_cases h : x.order_id = oid
  · simp [h, hne]
  · simp [h]

/-- Deleting the first item row that matches both ids lowers the
derived total of that order by exactly the total_price of that row,
provided the item ids are pairwise distinct. -/
theorem itemsTotal_remove (l : List OrderItem) (orderItemId orderId : Nat)
    (item : OrderItem)
    (hfind : (l.find? fun x => x.id = orderItemId ∧ x.order_id = orderId) =
      some item)
    (hpw : l.Pairwise fun a b => a.id ≠ b.id) :
    itemsTotal (l.filter fun x => ¬ (x.id = orderItemId ∧ x.order_id = orderId))
        orderId = itemsTotal l orderId - item.total_price := by
  induction l with
  | nil => exact absurd hfind (by simp)
  | cons x t ih =>
    rw [List.pairwise_cons] at hpw
    by_cases hx : x.id = orderItemId ∧ x.order_id = orderId
    · have hitem : x = item := by
        rw [List.find?_cons_of_pos _ (by simpa using hx)] at hfind
        injection hfind
      have ht : t.filter (fun y =>
          ¬ (y.id = orderItemId ∧ y.order_id = orderId)) = t := by
        apply List.filter_eq_self.2
        intro y hy
        simp only [decide_eq_true_eq]
        intro hc
        exact hpw.1 y hy (hx.1.trans hc.1.symm)
      rw [List.filter_cons_of_neg (by simpa using hx), ht]
      unfold itemsTotal
      rw [List.filter_cons_of_pos (by simpa using hx.2)]
      rw [← hitem]
      simp only [List.map_cons, List.sum_cons]
      ring
    · rw [List.find?_cons_of_neg _ (by simpa using hx)] at hfind
      have ihh := ih hfind hpw.2
      rw [List.filter_cons_of_pos
        (by simp only [decide_eq_true_eq]; exact hx)]
      unfold itemsTotal at ihh ⊢
      by_cases hord : x.order_id = orderId
      · rw [List.filter_cons_of_pos (by simpa using hord),
          List.filter_cons_of_pos (by simpa using hord)]
        simp only [List.map_cons, List.sum_cons]
        rw [ihh]
        ring
      · rw [List.filter_cons_of_neg (by simpa using hord),
          List.filter_cons_of_neg (by simpa using hord)]
        exact ihh

/-- createOrder preserves the order-subsystem invariant: the new order
is fresh, carries total 0, and no existing item references it. -/
theorem orderInv_create (input : CreateOrderInput) (s : DB)
    (h : OrderInv s) : OrderInv (createOrder input s).2 := by
  unfold createOrder
  split
  · exact h
  · split
    · exact h
    · constructor
      · intro o ho
        rcases List.mem_append.1 ho with ho | ho
        · exact Nat.lt_succ_of_lt (h.orders_lt o ho)
        · rw [List.mem_singleton.1 ho]
          exact Nat.lt_succ_self _
      · intro it hit
        exact Nat.lt_succ_of_lt (h.items_ref_lt it hit)
      · exact h.items_lt
      · exact h.items_distinct
      · exact h.items_nonneg
      · intro o ho
        rcases List.mem_append.1 ho with ho | ho
        · exact h.totals o ho
        · rw [List.mem_singleton.1 ho]
          have hempty : (s.order_items.filter
              fun it => it.order_id = s.next_order_id) = [] := by
            rw [List.filter_eq_nil_iff]
            intro it hit
            simp only [decide_eq_true_eq]
            intro hc
            exact absurd (hc ▸ h.items_ref_lt it hit) (lt_irrefl _)
          show (0 : ℚ) = itemsTotal s.order_items s.next_order_id
          unfold itemsTotal
          rw [hempty]
          rfl

/-- updateOrder preserves the order-subsystem invariant: it touches
neither ids, totals nor items. -/
theorem orderInv_update (input : UpdateOrderInput) (s : DB)
    (h : OrderInv s) : OrderInv (updateOrder input s).2 := by
  unfold updateOrder
  cases hfind : s.orders.find? fun o => o.id = input.id with
  | none => exact h
  | some o₀ =>
    constructor
    · intro o ho
      rcases List.mem_map.1 ho with ⟨q, hq, rfl⟩
      by_cases hid : q.id = input.id
      · rw [if_pos hid]
        exact h.orders_lt q hq
      · rw [if_neg hid]
        exact h.orders_lt q hq
    · exact h.items_ref_lt
    · exact h.items_lt
    · exact h.items_distinct
    · exact h.items_nonneg
    · intro o ho
      rcases List.mem_map.1 ho with ⟨q, hq, rfl⟩
      by_cases hid : q.id = input.id
      · rw [if_pos hid]
        exact h.totals q hq
      · rw [if_neg hid]
        exact h.totals q hq

/-- addOrderItem preserves the order-subsystem invariant: the new item
is fresh and positive, and the matching order total grows by exactly
the new total_price. -/
theorem orderInv_add (input : CreateOrderItemInput) (s : DB)
    (hv : input.Valid) (h : OrderInv s) :
    OrderInv (addOrderItem input s).2 := by
  unfold addOrderItem
  cases hfind : s.orders.find? fun o => o.id = input.order_id with
  | none => exact h
  | some o₀ =>
    dsimp only
    split
    · exact h
    · have ho₀mem : o₀ ∈ s.orders := List.mem_of_find?_eq_some hfind
      have ho₀id : o₀.id = input.order_id := by
        simpa using List.find?_some hfind
      constructor
      · intro o ho
        rcases List.mem_map.1 ho with ⟨q, hq, rfl⟩
        by_cases hid : q.id = input.order_id
        · rw [if_pos hid]
          exact h.orders_lt q hq
        · rw [if_neg hid]
          exact h.orders_lt q hq
      · intro it hit
        rcases List.mem_append.1 hit with hit | hit
        · exact h.items_ref_lt it hit
        · rw [List.mem_singleton.1 hit]
          exact ho₀id ▸ h.orders_lt o₀ ho₀mem
      · intro it hit
        rcases List.mem_append.1 hit with hit | hit
        · exact Nat.lt_succ_of_lt (h.items_lt it hit)
        · rw [List.mem_singleton.1 hit]
          exact Nat.lt_succ_self _
      · rw [List.pairwise_append]
        refine ⟨h.items_distinct, List.pairwise_singleton _ _, ?_⟩
        intro a ha b hb
        rw [List.mem_singleton.1 hb]
        exact Nat.ne_of_lt (h.items_lt a ha)
      · intro it hit
        rcases List.mem_append.1 hit with hit | hit
        · exact h.items_nonneg it hit
        · rw [List.mem_singleton.1 hit]
          exact le_of_lt (mul_pos hv.2 (by exact_mod_cast hv.1))
      · intro o ho
        rcases List.mem_map.1 ho with ⟨q, hq, rfl⟩
        have hq_total := h.totals q hq
        have ho₀_total := h.totals o₀ ho₀mem
        by_cases hid : q.id = input.order_id
        · rw [if_pos hid]
          show o₀.total_amount + input.unit_price * input.quantity =
            itemsTotal (s.order_items ++
              [{ id := s.next_order_item_id
                 order_id := input.order_id
                 menu_item_id := input.menu_item_id
                 quantity := input.quantity
                 unit_price := input.unit_price
                 total_price := input.unit_price * input.quantity
                 special_instructions := input.special_instructions }]) q.id
          rw [itemsTotal_append, if_pos (hid.symm : input.order_id = q.id)]
          rw [ho₀_total, ho₀id, hid]
        · rw [if_neg hid]
          show q.total_amount = itemsTotal (s.order_items ++
              [{ id := s.next_order_item_id
                 order_id := input.order_id
                 menu_item_id := input.menu_item_id
                 quantity := input.quantity
                 unit_price := input.unit_price
                 total_price := input.unit_price * input.quantity
                 special_instructions := input.special_instructions }]) q.id
          rw [itemsTotal_append,
            if_neg (fun hc => hid (hc.symm : q.id = input.order_id)),
            add_zero]
          exact hq_total

/-- removeOrderItem preserves the order-subsystem invariant: the
subtracted amount is the total_price of the one deleted row, so the
clamp at zero never fires. -/
theorem orderInv_remove (orderItemId orderId : Nat) (s : DB)
    (h : OrderInv s) : OrderInv (removeOrderItem orderItemId orderId s).2 := by
  unfold removeOrderItem
  cases hitem : s.order_items.find?
      (fun it => it.id = orderItemId ∧ it.order_id = orderId) with
  | none => exact h
  | some item =>
    cases hord : s.orders.find? fun o => o.id = orderId with
    | none => exact h
    | some o₀ =>
      dsimp only
      have ho₀mem : o₀ ∈ s.orders := List.mem_of_find?_eq_some hord
      have ho₀id : o₀.id = orderId := by simpa using List.find?_some hord
      constructor
      · intro o ho
        rcases List.mem_map.1 ho with ⟨q, hq, rfl⟩
        by_cases hid : q.id = orderId
        · rw [if_pos hid]
          exact h.orders_lt q hq
        · rw [if_neg hid]
          exact h.orders_lt q hq
      · intro it hit
        exact h.items_ref_lt it (List.mem_of_mem_filter hit)
      · intro it hit
        exact h.items_lt it (List.mem_of_mem_filter hit)
      · exact h.items_distinct.sublist (List.filter_sublist _)
      · intro it hit
        exact h.items_nonneg it (List.mem_of_mem_filter hit)
      · intro o ho
        rcases List.mem_map.1 ho with ⟨q, hq, rfl⟩
        have hrm := itemsTotal_remove s.order_items orderItemId orderId item
          hitem h.items_distinct
        by_cases hid : q.id = orderId
        · rw [if_pos hid]
          have hnn : 0 ≤ itemsTotal (s.order_items.filter fun x =>
              ¬ (x.id = orderItemId ∧ x.order_id = orderId)) orderId :=
            itemsTotal_nonneg _ _
              (fun it hit => h.items_nonneg it (List.mem_of_mem_filter hit))
          have ho₀_total := h.totals o₀ ho₀mem
          rw [ho₀id] at ho₀_total
          show max 0 (o₀.total_amount - item.total_price) =
            itemsTotal (s.order_items.filter fun it =>
              ¬ (it.id = orderItemId ∧ it.order_id = orderId)) q.id
          rw [hid, ho₀_total, ← hrm]
          exact max_eq_right hnn
        · rw [if_neg hid]
          show q.total_amount = itemsTotal (s.order_items.filter fun it =>
              ¬ (it.id = orderItemId ∧ it.order_id = orderId)) q.id
          unfold itemsTotal
          rw [filter_remove_other s.order_items orderItemId orderId q.id hid]
          exact h.totals q hq

/-- Every order step preserves the order-subsystem invariant. -/
theorem orderInv_step (s s' : DB) (hstep : OrderStep s s')
    (h : OrderInv s) : OrderInv s' := by
  cases hstep with
  | create input t t' heq =>
    subst heq
    exact orderInv_create input s h
  | update input t t' heq =>
    subst heq
    exact orderInv_update input s h
  | addItem input t t' hv heq =>
    subst heq
    exact orderInv_add input s hv h
  | removeItem orderItemId orderId t t' heq =>
    subst heq
    exact orderInv_remove orderItemId orderId s h

/-- createPayment with a matched input preserves referential shape. -/
theorem refOk_create (input : CreatePaymentInput) (s : DB)
    (hm : input.Matched) (h : ∀ p ∈ s.payments, PaymentRefOk p) :
    ∀ p ∈ (createPayment input s).2.payments, PaymentRefOk p := by
  unfold createPayment
  split
  · exact h
  · split
    · exact h
    · split
      · exact h
      · intro p hp
        dsimp only at hp
        rcases List.mem_append.1 hp with hp | hp
        · exact h p hp
        · rw [List.mem_singleton.1 hp]
          exact hm

/-- updatePayment never touches type, order_id or reservation_id, so
it preserves referential shape. -/
theorem refOk_update (input : UpdatePaymentInput) (s : DB)
    (h : ∀ p ∈ s.payments, PaymentRefOk p) :
    ∀ p ∈ (updatePayment input s).2.payments, PaymentRefOk p := by
  unfold updatePayment
  cases hfind : s.payments.find? fun p => p.id = input.id with
  | none => exact h
  | some p₀ =>
    intro p hp
    dsimp only at hp
    rcases List.mem_map.1 hp with ⟨q, hq, rfl⟩
    by_cases hid : q.id = input.id
    · rw [if_pos hid]
      exact h q hq
    · rw [if_neg hid]
      exact h q hq

/-- processPayment only rewrites status and transaction_id, so it
preserves referential shape. -/
theorem refOk_process (paymentId : Nat) (txn : String) (s : DB)
    (h : ∀ p ∈ s.payments, PaymentRefOk p) :
    ∀ p ∈ (processPayment paymentId txn s).2.payments, PaymentRefOk p := by
  unfold processPayment
  cases hfind : s.payments.find? fun p => p.id = paymentId with
  | none => exact h
  | some p₀ =>
    dsimp only
    split
    · exact h
    · intro p hp
      dsimp only at hp
      rcases List.mem_map.1 hp with ⟨q, hq, rfl⟩
      by_cases hid : q.id = paymentId
      · rw [if_pos hid]
        exact h q hq
      · rw [if_neg hid]
        exact h q hq

/-- refundPayment only rewrites status and transaction_id, so it
preserves referential shape. -/
theorem refOk_refund (paymentId : Nat) (txn : String) (s : DB)
    (h : ∀ p ∈ s.payments, PaymentRefOk p) :
    ∀ p ∈ (refundPayment paymentId txn s).2.payments, PaymentRefOk p := by
  unfold refundPayment
  cases hfind : s.payments.find? fun p => p.id = paymentId with
  | none => exact h
  | some p₀ =>
    dsimp only
    split
    · exact h
    · intro p hp
      dsimp only at hp
      rcases List.mem_map.1 hp with ⟨q, hq, rfl⟩
      by_cases hid : q.id = paymentId
      · rw [if_pos hid]
        exact h q hq
      · rw [if_neg hid]
        exact h q hq

end Lemmas

section Claims

/-- C9: every successful call to createOrder returns an order with
status pending and total_amount 0, regardless of the input. -/
theorem createOrder_fresh_order (input : CreateOrderInput) (s : DB)
    (o : Order) (h : (createOrder input s).1 = Except.ok o) :
    o.status = OrderStatus.pending ∧ o.total_amount = 0 := by
  unfold createOrder at h
  split at h
  · simp at h
  · split at h
    · simp at h
    · simp only at h
      injection h with h
      subst h
      exact ⟨rfl, rfl⟩

/-- Witness for C9 on the fixture state. -/
theorem createOrder_fresh_order_app :
    oOrder1.status = OrderStatus.pending ∧ oOrder1.total_amount = 0 :=
  createOrder_fresh_order coInput baseDB oOrder1 rfl

/-- C10: when no order item matches both ids, or no order matches the
order id, removeOrderItem returns false and leaves the entire database
state, orders and order items included, unchanged. -/
theorem removeOrderItem_missing (orderItemId orderId : Nat) (s : DB)
    (h : (s.order_items.find?
            fun it => it.id = orderItemId ∧ it.order_id = orderId) = none ∨
         (s.orders.find? fun o => o.id = orderId) = none) :
    removeOrderItem orderItemId orderId s = (false, s) := by
  unfold removeOrderItem
  rcases h with h | h
  · rw [h]
  · cases hit : s.order_items.find?
        fun it => it.id = orderItemId ∧ it.order_id = orderId with
    | none => rfl
    | some item => rw [h]

/-- Witness for C10: removing a nonexistent item id from the fixture
state changes nothing. -/
theorem removeOrderItem_missing_app :
    removeOrderItem 5 1 oS2 = (false, oS2) :=
  removeOrderItem_missing 5 1 oS2 (Or.inl rfl)

/-- C4 counterexample: updateOrder moves an existing delivered order
straight back to pending, a pair outside the permitted transitions, so
the claimed restriction does not hold. -/
theorem updateOrder_escapes_status_chain :
    cexOrder4 ∈ cexDB4.orders ∧
    cexOrder4.status = OrderStatus.delivered ∧
    OrderStep cexDB4 (updateOrder cexInput4 cexDB4).2 ∧
    ((updateOrder cexInput4 cexDB4).2.orders.find? fun x => x.id = 1) =
      some { cexOrder4 with status := OrderStatus.pending } ∧
    ¬ allowedOrderTransition OrderStatus.delivered OrderStatus.pending := by
  exact ⟨by decide, rfl, OrderStep.update cexInput4 cexDB4 _ rfl, by decide,
    by decide⟩

/-- C4 amended: updateOrder on an existing order performs no
status-transition validation at all: it stores and returns the order
with exactly the requested status when one is provided, and the old
status otherwise; any pair of statuses can occur this way. -/
theorem updateOrder_applies_requested_status (input : UpdateOrderInput)
    (s : DB) (o : Order)
    (h : (s.orders.find? fun x => x.id = input.id) = some o) :
    (updateOrder input s).1 = Except.ok (applyOrderUpdate input o) ∧
    ((updateOrder input s).2.orders.find? fun x => x.id = input.id) =
      some (applyOrderUpdate input o) ∧
    (applyOrderUpdate input o).status = Option.getD input.status o.status := by
  unfold updateOrder
  rw [h]
  refine ⟨rfl, ?_, rfl⟩
  simp only
  rw [find?_map_ite Order.id (applyOrderUpdate input) input.id
    (fun a => rfl) s.orders, h]
  rfl

/-- Witness for the amended C4 on the fixture state. -/
theorem updateOrder_applies_requested_status_app :
    (updateOrder cexInput4 cexDB4).1 =
      Except.ok { cexOrder4 with status := OrderStatus.pending } :=
  (updateOrder_applies_requested_status cexInput4 cexDB4 cexOrder4 rfl).1

/-- C5: processPayment throws exactly when the payment id is absent or
its status is not pending, leaving the state unchanged in that case;
otherwise it stores and returns the payment with status processing and
a non-null transaction id, all other fields unchanged. -/
theorem processPayment_spec (paymentId : Nat) (txn : String) (s : DB) :
    (raisesError (processPayment paymentId txn s) ↔
      (s.payments.find? fun p => p.id = paymentId) = none ∨
        ∃ p, (s.payments.find? fun p => p.id = paymentId) = some p ∧
          p.status ≠ PaymentStatus.pending) ∧
    (raisesError (processPayment paymentId txn s) →
      (processPayment paymentId txn s).2 = s) ∧
    (∀ p, (s.payments.find? fun q => q.id = paymentId) = some p →
      p.status = PaymentStatus.pending →
      (processPayment paymentId txn s).1 =
        Except.ok { p with
          status := PaymentStatus.processing
          transaction_id := some txn } ∧
      ({ p with
          status := PaymentStatus.processing
          transaction_id := some txn } : Payment).transaction_id ≠ none ∧
      (processPayment paymentId txn s).2.payments =
        s.payments.map fun x =>
          if x.id = paymentId then
            { x with
                status := PaymentStatus.processing
                transaction_id := some txn }
          else x) := by
  unfold processPayment
  cases hfind : s.payments.find? fun p => p.id = paymentId with
  | none =>
    refine ⟨⟨fun _ => Or.inl rfl, fun _ => ⟨"Payment not found", rfl⟩⟩,
      fun _ => rfl, fun p hp => absurd hp (by simp)⟩
  | some p₀ =>
    dsimp only
    by_cases hstat : p₀.status = PaymentStatus.pending
    · rw [if_neg (by simp [hstat])]
      refine ⟨⟨?_, ?_⟩, ?_, ?_⟩
      · rintro ⟨e, he⟩
        simp at he
      · rintro (h | ⟨p, hp, hne⟩)
        · exact absurd h (by simp)
        · injection hp with hp
          exact absurd (hp ▸ hstat) hne
      · rintro ⟨e, he⟩
        simp at he
      · intro p hp hps
        injection hp with hp
        subst hp
        exact ⟨rfl, by simp, rfl⟩
    · rw [if_pos hstat]
      refine ⟨⟨fun _ => Or.inr ⟨p₀, rfl, hstat⟩, fun _ => ⟨_, rfl⟩⟩,
        fun _ => rfl, ?_⟩
      intro p hp hps
      injection hp with hp
      exact absurd (hp ▸ hps) hstat

/-- Witness for C5: processing the pending fixture payment. -/
theorem processPayment_spec_app :
    (processPayment 1 "txn_1" payDB).1 =
      Except.ok { pPending with
        status := PaymentStatus.processing
        transaction_id := some "txn_1" } :=
  ((processPayment_spec 1 "txn_1" payDB).2.2 pPending rfl rfl).1

/-- C6: refundPayment throws exactly when the payment id is absent or
its status is not completed, leaving the state unchanged in that case;
otherwise it stores and returns the payment with status refunded, all
fields other than status and transaction id unchanged. -/
theorem refundPayment_spec (paymentId : Nat) (txn : String) (s : DB) :
    (raisesError (refundPayment paymentId txn s) ↔
      (s.payments.find? fun p => p.id = paymentId) = none ∨
        ∃ p, (s.payments.find? fun p => p.id = paymentId) = some p ∧
          p.status ≠ PaymentStatus.completed) ∧
    (raisesError (refundPayment paymentId txn s) →
      (refundPayment paymentId txn s).2 = s) ∧
    (∀ p, (s.payments.find? fun q => q.id = paymentId) = some p →
      p.status = PaymentStatus.completed →
      (refundPayment paymentId txn s).1 =
        Except.ok { p with
          status := PaymentStatus.refunded
          transaction_id := some txn } ∧
      (refundPayment paymentId txn s).2.payments =
        s.payments.map fun x =>
          if x.id = paymentId then
            { x with
                status := PaymentStatus.refunded
                transaction_id := some txn }
          else x) := by
  unfold refundPayment
  cases hfind : s.payments.find? fun p => p.id = paymentId with
  | none =>
    refine ⟨⟨fun _ => Or.inl rfl, fun _ => ⟨"Payment not found", rfl⟩⟩,
      fun _ => rfl, fun p hp => absurd hp (by simp)⟩
  | some p₀ =>
    dsimp only
    by_cases hstat : p₀.status = PaymentStatus.completed
    · rw [if_neg (by simp [hstat])]
      refine ⟨⟨?_, ?_⟩, ?_, ?_⟩
      · rintro ⟨e, he⟩
        simp at he
      · rintro (h | ⟨p, hp, hne⟩)
        · exact absurd h (by simp)
        · injection hp with hp
          exact absurd (hp ▸ hstat) hne
      · rintro ⟨e, he⟩
        simp at he
      · intro p hp hps
        injection hp with hp
        subst hp
        exact ⟨rfl, rfl⟩
    · rw [if_pos hstat]
      refine ⟨⟨fun _ => Or.inr ⟨p₀, rfl, hstat⟩, fun _ => ⟨_, rfl⟩⟩,
        fun _ => rfl, ?_⟩
      intro p hp hps
      injection hp with hp
      exact absurd (hp ▸ hps) hstat

/-- Witness for C6: refunding the completed fixture payment. -/
theorem refundPayment_spec_app :
    (refundPayment 2 "refund_1" payDB).1 =
      Except.ok { pCompleted with
        status := PaymentStatus.refunded
        transaction_id := some "refund_1" } :=
  ((refundPayment_spec 2 "refund_1" payDB).2.2 pCompleted rfl rfl).1

/-- C7: every successful addOrderItem call creates the item with
total_price equal to unit_price times quantity and stores the order with
its total_amount increased by exactly that amount. -/
theorem addOrderItem_total_price (input : CreateOrderItemInput) (s : DB)
    (item : OrderItem) (h : (addOrderItem input s).1 = Except.ok item) :
    item.total_price = input.unit_price * input.quantity ∧
    ∀ o, (s.orders.find? fun x => x.id = input.order_id) = some o →
      ((addOrderItem input s).2.orders.find?
          fun x => x.id = input.order_id) =
        some { o with total_amount :=
          o.total_amount + input.unit_price * input.quantity } := by
  cases hfind : s.orders.find? fun x => x.id = input.order_id with
  | none =>
    unfold addOrderItem at h
    rw [hfind] at h
    exact absurd h (by simp)
  | some o₀ =>
    unfold addOrderItem at h ⊢
    rw [hfind] at h ⊢
    dsimp only at h ⊢
    by_cases hm : (s.menu_items.find? fun m => m.id = input.menu_item_id).isNone
    · rw [if_pos hm] at h
      exact absurd h (by simp)
    · rw [if_neg hm] at h ⊢
      dsimp only at h ⊢
      injection h with h
      subst h
      refine ⟨rfl, ?_⟩
      intro o ho
      injection ho with ho
      subst ho
      rw [find?_map_ite Order.id
        (fun x => { x with total_amount :=
          o₀.total_amount + input.unit_price * input.quantity })
        input.order_id (fun a => rfl) s.orders, hfind]
      rfl

/-- Witness for C7 on the fixture state: two units at price 10 yield an
item of total_price 20 and lift the order total from 0 to 20. -/
theorem addOrderItem_total_price_app :
    wItem.total_price = aiInput.unit_price * aiInput.quantity ∧
    ((addOrderItem aiInput oS1).2.orders.find? fun x => x.id = 1) =
      some { oOrder1 with total_amount :=
        oOrder1.total_amount + aiInput.unit_price * aiInput.quantity } :=
  have h := addOrderItem_total_price aiInput oS1 wItem
    (by with_unfolding_all rfl)
  ⟨h.1, h.2 oOrder1 rfl⟩

/-- C8: cancelReservation on an existing reservation of an existing
restaurant throws and changes nothing when the caller is neither the
customer nor the partner; for the customer or the partner it returns
true and stores the reservation as cancelled with every other field
unchanged. -/
theorem cancelReservation_spec (id userId : Nat) (s : DB)
    (resv : Reservation) (rest : Restaurant)
    (hres : (s.reservations.find? fun r => r.id = id) = some resv)
    (hrest : (s.restaurants.find?
        fun r => r.id = resv.restaurant_id) = some rest) :
    (resv.customer_id ≠ userId ∧ rest.partner_id ≠ userId →
      cancelReservation id userId s =
        (Except.error "Unauthorized to cancel this reservation", s)) ∧
    (resv.customer_id = userId ∨ rest.partner_id = userId →
      (cancelReservation id userId s).1 = Except.ok true ∧
      (cancelReservation id userId s).2.reservations =
        s.reservations.map (fun r =>
          if r.id = id then { r with status := ReservationStatus.cancelled }
          else r) ∧
      ((cancelReservation id userId s).2.reservations.find?
          fun r => r.id = id) =
        some { resv with status := ReservationStatus.cancelled } ∧
      ({ resv with status := ReservationStatus.cancelled } :
          Reservation).customer_id = resv.customer_id ∧
      ({ resv with status := ReservationStatus.cancelled } :
          Reservation).restaurant_id = resv.restaurant_id ∧
      ({ resv with status := ReservationStatus.cancelled } :
          Reservation).reservation_date = resv.reservation_date ∧
      ({ resv with status := ReservationStatus.cancelled } :
          Reservation).party_size = resv.party_size ∧
      ({ resv with status := ReservationStatus.cancelled } :
          Reservation).special_requests = resv.special_requests) := by
  unfold cancelReservation
  rw [hres]
  dsimp only
  rw [hrest]
  dsimp only
  constructor
  · intro hc
    rw [if_pos hc]
  · intro h
    have hcond : ¬ (¬ resv.customer_id = userId ∧
        ¬ rest.partner_id = userId) := by
      rcases h with h | h
      · exact fun hc => hc.1 h
      · exact fun hc => hc.2 h
    rw [if_neg hcond]
    refine ⟨rfl, rfl, ?_, rfl, rfl, rfl, rfl, rfl⟩
    dsimp only
    rw [find?_map_ite Reservation.id
      (fun r => { r with status := ReservationStatus.cancelled })
      id (fun a => rfl) s.reservations, hres]
    rfl

/-- Witness for C8 on the fixture state: the stranger is rejected with
no change, the partner succeeds. -/
theorem cancelReservation_spec_app :
    cancelReservation 1 3 baseDB =
      (Except.error "Unauthorized to cancel this reservation", baseDB) ∧
    (cancelReservation 1 2 baseDB).1 = Except.ok true :=
  ⟨(cancelReservation_spec 1 3 baseDB resv1 rest1 rfl rfl).1
      ⟨by decide, by decide⟩,
    ((cancelReservation_spec 1 2 baseDB resv1 rest1 rfl rfl).2
      (Or.inr rfl)).1⟩

/-- C2 counterexample: createPayment accepts a payment of type order
with a null order_id, reachable in one step from a payment-free state,
so the claimed referential invariant does not hold. -/
theorem createPayment_violates_ref_integrity :
    baseDB.payments = [] ∧
    PaymentStep baseDB (createPayment cpBad baseDB).2 ∧
    (createPayment cpBad baseDB).1 = Except.ok cpBadPayment ∧
    (createPayment cpBad baseDB).2.payments = [cpBadPayment] ∧
    cpBadPayment.type = PaymentType.order ∧
    cpBadPayment.order_id = none ∧
    ¬ PaymentRefOk cpBadPayment :=
  ⟨rfl, PaymentStep.create cpBad baseDB _ (by decide) rfl, rfl, rfl, rfl, rfl,
    by decide⟩

/-- C2 amended: when every createPayment input carries ids matching its
type, every state reachable by the four payment operations from a state
whose payments are referentially well-shaped keeps every payment
referencing exactly one of order_id and reservation_id per its type;
the three non-creating operations never touch those fields. -/
theorem payment_ref_integrity_of_matched (s₀ s : DB)
    (h₀ : ∀ p ∈ s₀.payments, PaymentRefOk p)
    (hr : Relation.ReflTransGen MatchedPaymentStep s₀ s) :
    ∀ p ∈ s.payments, PaymentRefOk p := by
  induction hr with
  | refl => exact h₀
  | tail _ hstep ih =>
    cases hstep with
    | create input t t' hv hm heq =>
      subst heq
      exact refOk_create input _ hm ih
    | update input t t' heq =>
      subst heq
      exact refOk_update input _ ih
    | process paymentId txn t t' heq =>
      subst heq
      exact refOk_process paymentId txn _ ih
    | refund paymentId txn t t' heq =>
      subst heq
      exact refOk_refund paymentId txn _ ih

/-- Witness for the amended C2: a matched creation on the fixture
state yields a well-shaped payment. -/
theorem payment_ref_integrity_of_matched_app :
    PaymentRefOk cpGoodPayment :=
  payment_ref_integrity_of_matched payDB (createPayment cpGood payDB).2
    (by decide)
    (Relation.ReflTransGen.tail Relation.ReflTransGen.refl
      (MatchedPaymentStep.create cpGood payDB _ (by decide) (by decide) rfl))
    cpGoodPayment (by decide)

/-- C3 counterexample: updatePayment drags an existing completed
payment straight back to pending, a pair outside the permitted
transitions, so the claimed restriction does not hold over the four
payment operations. -/
theorem updatePayment_escapes_status_chain :
    (payDB.payments.find? fun p => p.id = 2) = some pCompleted ∧
    pCompleted.status = PaymentStatus.completed ∧
    PaymentStep payDB (updatePayment cexInput3 payDB).2 ∧
    ((updatePayment cexInput3 payDB).2.payments.find?
        fun p => p.id = 2) =
      some { pCompleted with status := PaymentStatus.pending } ∧
    ¬ allowedPaymentTransition PaymentStatus.completed
        PaymentStatus.pending :=
  ⟨rfl, rfl, PaymentStep.update cexInput3 payDB _ rfl, by decide, by decide⟩

/-- C3 amended: over createPayment, processPayment and refundPayment,
payment statuses move only along the permitted chain: any payment row
before and after one such call with the same id has an allowed status
pair, assuming the stored ids are distinct and below the id counter. -/
theorem payment_status_chain_without_update (s s' : DB)
    (hids : s.payments.Pairwise fun a b => a.id ≠ b.id)
    (hfresh : ∀ p ∈ s.payments, p.id < s.next_payment_id)
    (hstep : PaymentStepCPR s s') :
    ∀ p ∈ s.payments, ∀ p' ∈ s'.payments, p'.id = p.id →
      allowedPaymentTransition p.status p'.status := by
  cases hstep with
  | create input t t' hv heq =>
    subst heq
    intro p hp p' hp' hid
    unfold createPayment at hp'
    split at hp'
    · rw [pairwise_key_inj Payment.id hids hp' hp hid]
      exact Or.inl rfl
    · split at hp'
      · rw [pairwise_key_inj Payment.id hids hp' hp hid]
        exact Or.inl rfl
      · split at hp'
        · rw [pairwise_key_inj Payment.id hids hp' hp hid]
          exact Or.inl rfl
        · dsimp only at hp'
          rcases List.mem_append.1 hp' with hp' | hp'
          · rw [pairwise_key_inj Payment.id hids hp' hp hid]
            exact Or.inl rfl
          · rw [List.mem_singleton.1 hp'] at hid
            exact absurd (hid ▸ hfresh p hp) (lt_irrefl _)
  | process paymentId txn t t' heq =>
    subst heq
    intro p hp p' hp' hid
    cases hfind : s.payments.find? fun q => q.id = paymentId with
    | none =>
      unfold processPayment at hp'
      rw [hfind] at hp'
      rw [pairwise_key_inj Payment.id hids hp' hp hid]
      exact Or.inl rfl
    | some p₀ =>
      have hmem₀ : p₀ ∈ s.payments := List.mem_of_find?_eq_some hfind
      have hid₀ : p₀.id = paymentId := by
        have := List.find?_some hfind
        simpa using this
      unfold processPayment at hp'
      rw [hfind] at hp'
      dsimp only at hp'
      by_cases hstat : p₀.status = PaymentStatus.pending
      · rw [if_neg (by simp [hstat])] at hp'
        dsimp only at hp'
        rcases List.mem_map.1 hp' with ⟨q, hq, rfl⟩
        by_cases hqid : q.id = paymentId
        · rw [if_pos hqid] at hid ⊢
          have hq₀ : q = p₀ :=
            pairwise_key_inj Payment.id hids hq hmem₀ (hqid.trans hid₀.symm)
          have hqp : q = p :=
            pairwise_key_inj Payment.id hids hq hp hid
          rw [← hqp, hq₀, hstat]
          exact Or.inr (Or.inl ⟨rfl, rfl⟩)
        · rw [if_neg hqid] at hid ⊢
          rw [pairwise_key_inj Payment.id hids hq hp hid]
          exact Or.inl rfl
      · rw [if_pos hstat] at hp'
        rw [pairwise_key_inj Payment.id hids hp' hp hid]
        exact Or.inl rfl
  | refund paymentId txn t t' heq =>
    subst heq
    intro p hp p' hp' hid
    cases hfind : s.payments.find? fun q => q.id = paymentId with
    | none =>
      unfold refundPayment at hp'
      rw [hfind] at hp'
      rw [pairwise_key_inj Payment.id hids hp' hp hid]
      exact Or.inl rfl
    | some p₀ =>
      have hmem₀ : p₀ ∈ s.payments := List.mem_of_find?_eq_some hfind
      have hid₀ : p₀.id = paymentId := by
        have := List.find?_some hfind
        simpa using this
      unfold refundPayment at hp'
      rw [hfind] at hp'
      dsimp only at hp'
      by_cases hstat : p₀.status = PaymentStatus.completed
      · rw [if_neg (by simp [hstat])] at hp'
        dsimp only at hp'
        rcases List.mem_map.1 hp' with ⟨q, hq, rfl⟩
        by_cases hqid : q.id = paymentId
        · rw [if_pos hqid] at hid ⊢
          have hq₀ : q = p₀ :=
            pairwise_key_inj Payment.id hids hq hmem₀ (hqid.trans hid₀.symm)
          have hqp : q = p :=
            pairwise_key_inj Payment.id hids hq hp hid
          rw [← hqp, hq₀, hstat]
          exact Or.inr (Or.inr (Or.inr (Or.inl ⟨rfl, rfl⟩)))
        · rw [if_neg hqid] at hid ⊢
          rw [pairwise_key_inj Payment.id hids hq hp hid]
          exact Or.inl rfl
      · rw [if_pos hstat] at hp'
        rw [pairwise_key_inj Payment.id hids hp' hp hid]
        exact Or.inl rfl

/-- Witness for the amended C3: processing the pending fixture payment
makes the allowed pending-to-processing move. -/
theorem payment_status_chain_without_update_app :
    allowedPaymentTransition pPending.status
      ({ pPending with
          status := PaymentStatus.processing
          transaction_id := some "txn_2" } : Payment).status :=
  payment_status_chain_without_update payDB
    (processPayment 1 "txn_2" payDB).2 (by decide) (by decide)
    (PaymentStepCPR.process 1 "txn_2" payDB _ rfl)
    pPending (by decide)
    { pPending with
        status := PaymentStatus.processing
        transaction_id := some "txn_2" } (by decide) rfl

/-- C1: from any state with no orders and no order items, after any
sequence of createOrder, updateOrder, addOrderItem and removeOrderItem
calls, every order total_amount equals the sum of the total_price
values of the order items whose order_id is that order id. -/
theorem order_total_amount_invariant (s₀ s : DB)
    (h₁ : s₀.orders = []) (h₂ : s₀.order_items = [])
    (hr : Relation.ReflTransGen OrderStep s₀ s) :
    ∀ o ∈ s.orders, o.total_amount = itemsTotal s.order_items o.id := by
  have h0 : OrderInv s₀ := by
    constructor <;> simp [h₁, h₂]
  have hinv : OrderInv s := by
    induction hr with
    | refl => exact h0
    | tail hr' hstep ih => exact orderInv_step _ _ hstep ih
  exact hinv.totals

/-- Witness for C1: creating the fixture order and adding two units at
price 10 leaves the stored order total 20 equal to the derived sum. -/
theorem order_total_amount_invariant_app :
    oS2.orders = [oOrder2] ∧
    oOrder2.total_amount = itemsTotal oS2.order_items oOrder2.id := by
  have horders : oS2.orders = [oOrder2] := by with_unfolding_all rfl
  refine ⟨horders, ?_⟩
  have hr : Relation.ReflTransGen OrderStep baseDB oS2 :=
    Relation.ReflTransGen.tail
      (Relation.ReflTransGen.tail Relation.ReflTransGen.refl
        (OrderStep.create coInput baseDB oS1 rfl))
      (OrderStep.addItem aiInput oS1 oS2 (by decide) rfl)
  have hall := order_total_amount_invariant baseDB oS2 rfl rfl hr
  have hmem : oOrder2 ∈ oS2.orders := by
    rw [horders]
    exact List.mem_singleton_self _
  exact hall oOrder2 hmem

end Claims

end FlavorHub
